import Mathlib

/-!
Verification of the eoxs-allauth integration layer.

The development shallowly embeds the three source modules of the
repository:

* `eoxs_allauth/management/commands/auth_export_users.py` — the JSON user
  exporter (`Command.handle`, `strip_blanks`, the `serialize_*` family,
  `datetime_to_string`, `JSON_OPTS`);
* `eoxs_allauth/middleware.py` — the access-logging middleware and the
  inactive-user logout middleware;
* `eoxs_allauth/adapter.py` — the signup-refusing account adapter.

Python dictionaries built with `OrderedDict([(k, v), ...])` are embedded as
association lists together with an `orderedDict` constructor implementing
Python's semantics (a duplicate key updates the value at the key's first
position).  Python values appearing in serialized records are embedded as
the inductive type `JValue`; the blank test `value in (None, "", [])` of
`strip_blanks` becomes `isBlank`.  Django model instances are embedded as
structures holding the attributes the code reads; `datetime` objects are
embedded as a date part and a time part, with `isoformat` concatenating
them around the given separator, mirroring the standard library.
-/

/-- Embedded Python value as it appears in the serialized records:
`None`, booleans, integers, strings, lists and (ordered) dictionaries. -/
inductive JValue where
  | null : JValue
  | bool (b : Bool) : JValue
  | int (n : Int) : JValue
  | str (s : String) : JValue
  | list (xs : List JValue) : JValue
  | obj (fields : List (String × JValue)) : JValue

/-- Embedding of the Python test `value in (None, "", [])` used by
`strip_blanks` (auth_export_users.py line 83): equality against `None`,
the empty string and the empty list.  A boolean, an integer, a non-empty
string or list, and any dictionary compare unequal to all three. -/
def isBlank : JValue → Bool
  | JValue.null => true
  | JValue.str s => s = ""
  | JValue.list xs => xs.isEmpty
  | _ => false

/-- Insertion of one key/value pair into an embedded ordered dictionary:
if the key is present its value is updated in place (the entry keeps its
original position), otherwise the pair is appended — Python `dict`
assignment semantics. -/
def odInsert (d : List (String × JValue)) (k : String) (v : JValue) :
    List (String × JValue) :=
  match d with
  | [] => [(k, v)]
  | (k', v') :: rest =>
      if k' = k then (k, v) :: rest else (k', v') :: odInsert rest k v

/-- Embedding of `OrderedDict(pairs)`: the pairs are inserted left to
right. -/
def orderedDict (pairs : List (String × JValue)) : List (String × JValue) :=
  pairs.foldl (fun d kv => odInsert d kv.1 kv.2) []

/-- Embedding of the `strip_blanks` decorator (auth_export_users.py lines
78–85): rebuild the ordered dictionary from the items whose value is not
blank. -/
def strip_blanks (d : List (String × JValue)) : List (String × JValue) :=
  orderedDict (d.filter (fun kv => !(isBlank kv.2)))

theorem odInsert_of_not_mem (k : String) (v : JValue) :
    ∀ d : List (String × JValue), k ∉ d.map Prod.fst →
      odInsert d k v = d ++ [(k, v)] := by
  intro d
  induction d with
  | nil => intro _; rfl
  | cons hd tl ih =>
      intro h
      obtain ⟨k', v'⟩ := hd
      simp only [List.map_cons, List.mem_cons, not_or] at h
      simp only [odInsert, ih h.2, List.cons_append]
      rw [if_neg (fun e => h.1 e.symm)]

theorem orderedDict_loop (l : List (String × JValue)) :
    ∀ acc : List (String × JValue), (l.map Prod.fst).Nodup →
      (∀ k ∈ l.map Prod.fst, k ∉ acc.map Prod.fst) →
      l.foldl (fun d kv => odInsert d kv.1 kv.2) acc = acc ++ l := by
  induction l with
  | nil => intro acc _ _; simp
  | cons hd tl ih =>
      intro acc hnd hdis
      obtain ⟨k, v⟩ := hd
      simp only [List.map_cons, List.nodup_cons] at hnd
      have hk : k ∉ acc.map Prod.fst := hdis k (by simp)
      simp only [List.foldl_cons]
      rw [odInsert_of_not_mem k v acc hk,
        ih (acc ++ [(k, v)]) hnd.2 ?_]
      · simp
      · intro k' hk'
        simp only [List.map_append, List.mem_append, List.map_cons,
          List.map_nil, List.mem_singleton, not_or]
        exact ⟨hdis k' (by simp [hk']), fun e => hnd.1 (e ▸ hk')⟩

theorem orderedDict_eq_self (l : List (String × JValue))
    (h : (l.map Prod.fst).Nodup) : orderedDict l = l := by
  simpa using orderedDict_loop l [] h (by simp)

theorem strip_blanks_eq_filter (d : List (String × JValue))
    (h : (d.map Prod.fst).Nodup) :
    strip_blanks d = d.filter (fun kv => !(isBlank kv.2)) := by
  refine orderedDict_eq_self _ ?_
  exact (h.sublist (List.Sublist.map Prod.fst (List.filter_sublist d)))

/-- Embedding of a Python `datetime` value: its ISO date rendering and its
ISO time rendering, kept apart so that the separator argument of
`isoformat` is observable. -/
structure Datetime where
  date_part : String
  time_part : String

/-- Model of the standard library's `datetime.isoformat(sep)`: the date,
the separator character, the time. -/
def Datetime.isoformat (d : Datetime) (sep : String) : String :=
  d.date_part ++ sep ++ d.time_part

/-- Embedding of `datetime_to_string` (auth_export_users.py lines
151–152): `None` passes through, otherwise `isoformat('T')`. -/
def datetime_to_string : Option Datetime → JValue
  | none => JValue.null
  | some d => JValue.str (d.isoformat "T")

/-- The country attribute of a user profile; the serializer reads its
`code` field. -/
structure Country where
  code : JValue

/-- Attributes of the `UserProfile` model read by
`serialize_user_profile`. -/
structure UserProfile where
  title : JValue
  institution : JValue
  country : Country
  study_area : JValue
  executive_summary : JValue

/-- Attributes of an allauth `EmailAddress` row read by
`serialize_email_address`. -/
structure EmailAddress where
  email : JValue
  verified : JValue
  primary : JValue

/-- Attributes of an allauth `SocialAccount` row read by
`serialize_social_account`. -/
structure SocialAccount where
  uid : JValue
  provider : JValue
  date_joined : Option Datetime
  last_login : Option Datetime
  extra_data : JValue

/-- Attributes of a Django `User` row read by the exporter.  The username
is a string (the command filters on it); the optional profile embeds the
reverse one-to-one relation, the two sets the reverse foreign keys. -/
structure User where
  username : String
  password : JValue
  is_active : JValue
  date_joined : Option Datetime
  last_login : Option Datetime
  first_name : JValue
  last_name : JValue
  email : JValue
  userprofile : Option UserProfile
  emailaddress_set : List EmailAddress
  socialaccount_set : List SocialAccount

/-- Embedding of the attribute access `object_.userprofile`, which raises
`UserProfile.DoesNotExist` when no profile row exists for the user. -/
def userprofile_attr (u : User) : Except String UserProfile :=
  match u.userprofile with
  | some p => Except.ok p
  | none => Except.error "UserProfile.DoesNotExist"

/-- The `try`/`except UserProfile.DoesNotExist` block of `serialize_user`
(lines 101–104): the exception is caught and the profile treated as
`None`. -/
def get_user_profile (u : User) : Option UserProfile :=
  match userprofile_attr u with
  | Except.ok p => some p
  | Except.error _ => none

/-- The ordered pair list passed to `OrderedDict` by
`serialize_user_profile` (lines 90–96). -/
def user_profile_fields (p : UserProfile) : List (String × JValue) :=
  [("title", p.title),
   ("institution", p.institution),
   ("country", p.country.code),
   ("study_area", p.study_area),
   ("executive_summary", p.executive_summary)]

/-- Embedding of `serialize_user_profile` (decorated with
`strip_blanks`). -/
def serialize_user_profile (p : UserProfile) : List (String × JValue) :=
  strip_blanks (orderedDict (user_profile_fields p))

/-- The ordered pair list passed to `OrderedDict` by
`serialize_email_address` (lines 132–136). -/
def email_address_fields (e : EmailAddress) : List (String × JValue) :=
  [("email", e.email),
   ("verified", e.verified),
   ("primary", e.primary)]

/-- Embedding of `serialize_email_address` (decorated with
`strip_blanks`). -/
def serialize_email_address (e : EmailAddress) : List (String × JValue) :=
  strip_blanks (orderedDict (email_address_fields e))

/-- The ordered pair list passed to `OrderedDict` by
`serialize_social_account` (lines 141–148); note the `provider` key is
listed twice, exactly as in the source. -/
def social_account_fields (s : SocialAccount) : List (String × JValue) :=
  [("uid", s.uid),
   ("provider", s.provider),
   ("date_joined", datetime_to_string s.date_joined),
   ("last_login", datetime_to_string s.last_login),
   ("extra_data", s.extra_data),
   ("provider", s.provider)]

/-- Embedding of `serialize_social_account` (decorated with
`strip_blanks`). -/
def serialize_social_account (s : SocialAccount) : List (String × JValue) :=
  strip_blanks (orderedDict (social_account_fields s))

/-- Embedding of `serialize_list` (lines 155–156): serialize each object
of the list; each serialized record is a dictionary value. -/
def serialize_list {α : Type} (funct : α → List (String × JValue))
    (objects : List α) : List JValue :=
  objects.map (fun object_ => JValue.obj (funct object_))

/-- Embedding of `serialize_email_addresses` (line 158). -/
def serialize_email_addresses (objects : List EmailAddress) : List JValue :=
  serialize_list serialize_email_address objects

/-- Embedding of `serialize_social_accounts` (line 159). -/
def serialize_social_accounts (objects : List SocialAccount) : List JValue :=
  serialize_list serialize_social_account objects

/-- The ordered pair list passed to `OrderedDict` by `serialize_user`
(lines 106–127). -/
def user_fields (u : User) : List (String × JValue) :=
  [("username", JValue.str u.username),
   ("password", u.password),
   ("is_active", u.is_active),
   ("date_joined", datetime_to_string u.date_joined),
   ("last_login", datetime_to_string u.last_login),
   ("first_name", u.first_name),
   ("last_name", u.last_name),
   ("email", u.email),
   ("user_profile",
     match get_user_profile u with
     | some p => JValue.obj (serialize_user_profile p)
     | none => JValue.null),
   ("email_addresses", JValue.list (serialize_email_addresses u.emailaddress_set)),
   ("social_accounts", JValue.list (serialize_social_accounts u.socialaccount_set))]

/-- Embedding of `serialize_user` (decorated with `strip_blanks`). -/
def serialize_user (u : User) : List (String × JValue) :=
  strip_blanks (orderedDict (user_fields u))

/-- Python logging severity constant `INFO`. -/
def INFO : Nat := 20

/-- Python logging severity constant `WARNING`. -/
def WARNING : Nat := 30

/-- Python logging severity constant `ERROR`. -/
def ERROR : Nat := 40

/-- The attributes of `request.user` read by the two middleware
functions. -/
structure DjangoUser where
  username : String
  is_authenticated : Bool
  is_active : Bool

/-- The attributes of a Django `HttpRequest` read by the middleware:
the user, the method and path, and the two `META` entries consulted by
`get_remote_addr`. -/
structure Request where
  user : DjangoUser
  method : String
  path : String
  http_x_forwarded_for : Option String
  remote_addr_meta : Option String

/-- The attributes of a Django `HttpResponse` read by the access
logger. -/
structure Response where
  status_code : Nat
  reason_phrase : String

/-- Embedding of `get_remote_addr` (middleware.py lines 37–42): the part
of the forwarded-for header before the first comma when the header is set
and non-empty, else the `REMOTE_ADDR` entry. -/
def get_remote_addr (request : Request) : Option String :=
  match request.http_x_forwarded_for with
  | some x =>
      if x = "" then request.remote_addr_meta
      else some ((x.splitOn ",").headD "")
  | none => request.remote_addr_meta

/-- Embedding of `get_username` (middleware.py lines 45–48): the username
of an authenticated user, `None` otherwise. -/
def get_username (user : Option DjangoUser) : Option String :=
  match user with
  | some u => if u.is_authenticated then some u.username else none
  | none => none

/-- The `None`-or-empty to `"-"` defaulting done by
`AccessLoggerAdapter.__init__` (middleware.py lines 54–58). -/
def orDash : Option String → String
  | none => "-"
  | some s => if s = "" then "-" else s

/-- One emitted log line: its severity, its formatted message and the two
adapter context fields. -/
structure LogEvent where
  level : Nat
  message : String
  remote_addr : String
  username : String

/-- The wrapped `get_response` handler together with the two optional
log-level attributes read via `getattr` (middleware.py lines 63–68). -/
structure GetResponse where
  run : Request → Response
  log_level_auth : Option Nat
  log_level_unauth : Option Nat

/-- Embedding of `getattr(get_response, 'log_level_auth', default)`. -/
def getattr_log_level_auth (g : GetResponse) (default : Nat) : Nat :=
  g.log_level_auth.getD default

/-- Embedding of `getattr(get_response, 'log_level_unauth', default)`. -/
def getattr_log_level_unauth (g : GetResponse) (default : Nat) : Nat :=
  g.log_level_unauth.getD default

/-- Embedding of the closure `get_log_level` (middleware.py lines 70–77),
with the two captured info levels passed explicitly. -/
def get_log_level (log_level_authenticated log_level_unauthenticated : Nat)
    (status_code : Nat) (is_authenticated : Bool) : Nat :=
  if status_code < 400 then
    if is_authenticated then log_level_authenticated
    else log_level_unauthenticated
  else if status_code < 500 then WARNING
  else ERROR

/-- Embedding of `access_logging_middleware` (middleware.py lines 61–101):
the pair of emitted log lines and the returned response. -/
def access_logging_middleware (get_response : GetResponse)
    (request : Request) : List LogEvent × Response :=
  let remote_addr := orDash (get_remote_addr request)
  let username := orDash (get_username (some request.user))
  let tl :=
    if request.user.is_authenticated then
      ("A", getattr_log_level_auth get_response INFO)
    else
      ("N", getattr_log_level_unauth get_response INFO)
  let first : LogEvent :=
    ⟨tl.2, tl.1 ++ " " ++ request.method ++ " " ++ request.path,
      remote_addr, username⟩
  let response := get_response.run request
  let second : LogEvent :=
    ⟨get_log_level (getattr_log_level_auth get_response INFO)
        (getattr_log_level_unauth get_response INFO)
        response.status_code request.user.is_authenticated,
      "R " ++ request.method ++ " " ++ request.path ++ " " ++
        toString response.status_code ++ " " ++ response.reason_phrase ++ " ",
      remote_addr, username⟩
  ([first, second], response)

/-- The observable actions of the logout middleware, in order. -/
inductive MWAction where
  | logout : MWAction
  | callHandler : MWAction
deriving DecidableEq

/-- Embedding of Django's `logout(request)` as seen through this code:
the session is terminated, so the request's user is no longer
authenticated. -/
def logout (request : Request) : Request :=
  { request with user := { request.user with is_authenticated := false } }

/-- Embedding of `inactive_user_logout_middleware` (middleware.py lines
104–111): the ordered trace of actions, the request state the handler
sees, and the handler's result. -/
def inactive_user_logout_middleware {α : Type} (get_response : Request → α)
    (request : Request) : List MWAction × Request × α :=
  if request.user.is_authenticated && !(request.user.is_active) then
    ([MWAction.logout, MWAction.callHandler], logout request,
      get_response (logout request))
  else
    ([MWAction.callHandler], request, get_response request)

/-- Embedding of `NoNewUsersAccountAdapter.is_open_for_signup`
(adapter.py lines 33–40); the argument is optional so that an absent
request is covered. -/
def is_open_for_signup (request : Option Request) : Bool := false

/-- Embedding of the user selection of `Command.handle` (lines 63–69):
every user when no usernames are given, otherwise
`filter(username__in=args)`. -/
def users_query (users : List User) (args : List String) : List User :=
  if args.isEmpty then users
  else users.filter (fun u => args.contains u.username)

/-- The serialized data list built by `Command.handle` (line 71). -/
def handle_data (users : List User) (args : List String) :
    List (List (String × JValue)) :=
  (users_query users args).map serialize_user

/-- The keyword options passed to `json.dump` (line 41). -/
structure JsonOpts where
  sort_keys : Bool
  indent : Nat
  separators : String × String

/-- Embedding of `JSON_OPTS` (line 41). -/
def JSON_OPTS : JsonOpts :=
  ⟨false, 2, (",", ": ")⟩

/-- A run of `n` spaces. -/
def spaces (n : Nat) : String := String.mk (List.replicate n ' ')

/-- Escaping of one character inside a JSON string literal (model of the
`json` library's encoder). -/
def json_escape_char (c : Char) : String :=
  if c = '"' then "\\\""
  else if c = '\\' then "\\\\"
  else if c = '\n' then "\\n"
  else if c = '\r' then "\\r"
  else if c = '\t' then "\\t"
  else String.singleton c

/-- A JSON string literal (model of the `json` library's encoder). -/
def json_quote (s : String) : String :=
  "\"" ++ String.join (s.data.map json_escape_char) ++ "\""

mutual

/-- Model of the `json` library's serializer on the `sort_keys=False`
code path used by `JSON_OPTS`: dictionary entries are emitted in
insertion order, indented blocks use `opts.indent` further spaces, items
are joined by the first separator followed by a newline, and keys are
joined to values by the second separator. -/
def json_dump_value (opts : JsonOpts) (ind : Nat) : JValue → String
  | JValue.null => "null"
  | JValue.bool b => if b then "true" else "false"
  | JValue.int n => toString n
  | JValue.str s => json_quote s
  | JValue.list [] => "[]"
  | JValue.list (x :: xs) =>
      "[\n" ++ String.intercalate (opts.separators.1 ++ "\n")
          (json_dump_items opts (ind + opts.indent) (x :: xs)) ++
        "\n" ++ spaces ind ++ "]"
  | JValue.obj [] => "\x7b\x7d"
  | JValue.obj (kv :: kvs) =>
      "\x7b\n" ++ String.intercalate (opts.separators.1 ++ "\n")
          (json_dump_entries opts (ind + opts.indent) (kv :: kvs)) ++
        "\n" ++ spaces ind ++ "\x7d"

/-- Rendering of the items of a JSON array, each on its own indented
line. -/
def json_dump_items (opts : JsonOpts) (ind : Nat) : List JValue → List String
  | [] => []
  | x :: xs =>
      (spaces ind ++ json_dump_value opts ind x) ::
        json_dump_items opts ind xs

/-- Rendering of the entries of a JSON object, each on its own indented
line. -/
def json_dump_entries (opts : JsonOpts) (ind : Nat) :
    List (String × JValue) → List String
  | [] => []
  | (k, v) :: kvs =>
      (spaces ind ++ json_quote k ++ opts.separators.2 ++
          json_dump_value opts ind v) ::
        json_dump_entries opts ind kvs

end

/-- The JSON text `Command.handle` passes to `json.dump` (line 75): the
array of serialized user records rendered with `JSON_OPTS`. -/
def export_text (users : List User) (args : List String) : String :=
  json_dump_value JSON_OPTS 0
    (JValue.list ((handle_data users args).map JValue.obj))

/-- Where the command's output goes. -/
inductive Sink where
  | standard_output : Sink
  | file (name : String) : Sink
deriving DecidableEq

/-- The destination of one export run together with the successive
observable contents of that destination. -/
structure WriteOutcome where
  sink : Sink
  states : List String
deriving DecidableEq

/-- Model of the output step of `Command.handle` (lines 73–75): the text
goes to standard output when the file name is `-`; otherwise
`open(filename, "wb")` first truncates the named file — overwriting it —
and `json.dump` then writes the text, so the observable file contents are
the prior content, the empty truncated state, and the final text. -/
def command_write (filename : String) (old_content : String)
    (text : String) : WriteOutcome :=
  if filename = "-" then ⟨Sink.standard_output, [text]⟩
  else ⟨Sink.file filename, [old_content, "", text]⟩

/-- Embedding of `Command.handle` (lines 63–75) end to end: select the
users, serialize them, render the JSON text, write it out. -/
def handle (users : List User) (args : List String) (filename : String)
    (old_content : String) : WriteOutcome :=
  command_write filename old_content (export_text users args)

/-- A write is atomic when every observable intermediate content of the
destination is either the prior content or the final text. -/
def atomic_states (old_content new_content : String)
    (states : List String) : Bool :=
  states.all (fun s => s = old_content || s = new_content)

/-- Declared key order of the user record. -/
theorem user_fields_keys (u : User) :
    (user_fields u).map Prod.fst =
      ["username", "password", "is_active", "date_joined", "last_login",
       "first_name", "last_name", "email", "user_profile",
       "email_addresses", "social_accounts"] := rfl

/-- Declared key order of the profile record. -/
theorem user_profile_fields_keys (p : UserProfile) :
    (user_profile_fields p).map Prod.fst =
      ["title", "institution", "country", "study_area",
       "executive_summary"] := rfl

/-- Declared key order of the email-address record. -/
theorem email_address_fields_keys (e : EmailAddress) :
    (email_address_fields e).map Prod.fst =
      ["email", "verified", "primary"] := rfl

/-- The dictionary `OrderedDict(social_account_fields)` actually builds:
the duplicate `provider` entry collapses onto the first `provider`
position. -/
def social_account_dict (s : SocialAccount) : List (String × JValue) :=
  [("uid", s.uid),
   ("provider", s.provider),
   ("date_joined", datetime_to_string s.date_joined),
   ("last_login", datetime_to_string s.last_login),
   ("extra_data", s.extra_data)]

theorem orderedDict_social_account_fields (s : SocialAccount) :
    orderedDict (social_account_fields s) = social_account_dict s := rfl

theorem social_account_dict_keys (s : SocialAccount) :
    (social_account_dict s).map Prod.fst =
      ["uid", "provider", "date_joined", "last_login", "extra_data"] := rfl

theorem serialize_user_eq (u : User) :
    serialize_user u =
      (user_fields u).filter (fun kv => !(isBlank kv.2)) := by
  have h : serialize_user u = strip_blanks (user_fields u) := rfl
  rw [h, strip_blanks_eq_filter]
  rw [user_fields_keys]
  decide

theorem serialize_user_profile_eq (p : UserProfile) :
    serialize_user_profile p =
      (user_profile_fields p).filter (fun kv => !(isBlank kv.2)) := by
  have h : serialize_user_profile p = strip_blanks (user_profile_fields p) := rfl
  rw [h, strip_blanks_eq_filter]
  rw [user_profile_fields_keys]
  decide

theorem serialize_email_address_eq (e : EmailAddress) :
    serialize_email_address e =
      (email_address_fields e).filter (fun kv => !(isBlank kv.2)) := by
  have h : serialize_email_address e = strip_blanks (email_address_fields e) := rfl
  rw [h, strip_blanks_eq_filter]
  rw [email_address_fields_keys]
  decide

theorem serialize_social_account_eq (s : SocialAccount) :
    serialize_social_account s =
      (social_account_dict s).filter (fun kv => !(isBlank kv.2)) := by
  have h : serialize_social_account s = strip_blanks (social_account_dict s) := rfl
  rw [h, strip_blanks_eq_filter]
  rw [social_account_dict_keys]
  decide

/-- ISO rendering with the `T` separator is never the empty string. -/
theorem isoformat_ne_empty (d : Datetime) : d.isoformat "T" ≠ "" := by
  intro hc
  have hl := congrArg String.length hc
  rw [Datetime.isoformat, String.length_append, String.length_append] at hl
  have h1 : ("T" : String).length = 1 := rfl
  have h2 : ("" : String).length = 0 := rfl
  omega

/-- A concrete timestamp used by the concrete conjuncts below. -/
def sample_datetime : Datetime := ⟨"2019-01-01", "12:00:00"⟩

/-- A concrete user named alice with no profile and no linked rows. -/
def alice : User :=
  ⟨"alice", JValue.str "hash", JValue.bool true, some sample_datetime,
    some sample_datetime, JValue.str "Alice", JValue.str "",
    JValue.str "alice@example.org", none, [], []⟩

/-- A concrete linked email address with an unverified flag. -/
def sample_email : EmailAddress :=
  ⟨JValue.str "bob@example.org", JValue.bool false, JValue.bool true⟩

/-- A concrete linked social account. -/
def sample_social : SocialAccount :=
  ⟨JValue.str "uid123", JValue.str "dummy_oauth2", some sample_datetime,
    none, JValue.obj []⟩

/-- A concrete deactivated user with no last login. -/
def bob : User :=
  ⟨"bob", JValue.str "hash2", JValue.bool false, some sample_datetime,
    none, JValue.str "", JValue.str "", JValue.str "bob@example.org",
    none, [sample_email], [sample_social]⟩

/-- A concrete request from an authenticated active user. -/
def sample_request : Request :=
  ⟨⟨"alice", true, true⟩, "GET", "/ows", none, some "127.0.0.1"⟩

/-- A concrete wrapped handler returning the given status code, with no
log-level attributes set. -/
def sample_get_response (code : Nat) : GetResponse :=
  ⟨fun _ => ⟨code, "X"⟩, none, none⟩

/-- Membership in a blank-stripped pair list. -/
theorem mem_filter_blank (l : List (String × JValue)) (kv : String × JValue) :
    kv ∈ l.filter (fun kv => !(isBlank kv.2)) ↔
      kv ∈ l ∧ isBlank kv.2 = false := by
  simp [List.mem_filter]

/-- Blank-stripping keeps the keys a sublist of the original key
order. -/
theorem filter_blank_keys_sublist (l : List (String × JValue)) :
    ((l.filter (fun kv => !(isBlank kv.2))).map Prod.fst).Sublist
      (l.map Prod.fst) :=
  List.Sublist.map Prod.fst (List.filter_sublist l)

/-- C1: every serialized record — the top-level user record and each
nested profile, email-address and social-account record — contains no
entry whose value is `None`, `""` or `[]`; an entry of the built
dictionary appears in the output exactly when its value is not one of
those blanks; and the retained keys appear in field declaration order (a
sublist of the declared key sequence). -/
theorem claim_C1 :
    ∀ (u : User) (p : UserProfile) (e : EmailAddress) (s : SocialAccount),
      (∀ kv ∈ serialize_user u, isBlank kv.2 = false) ∧
      (∀ kv, kv ∈ serialize_user u ↔
        kv ∈ user_fields u ∧ isBlank kv.2 = false) ∧
      ((serialize_user u).map Prod.fst).Sublist
        ["username", "password", "is_active", "date_joined", "last_login",
         "first_name", "last_name", "email", "user_profile",
         "email_addresses", "social_accounts"] ∧
      (∀ kv ∈ serialize_user_profile p, isBlank kv.2 = false) ∧
      (∀ kv, kv ∈ serialize_user_profile p ↔
        kv ∈ user_profile_fields p ∧ isBlank kv.2 = false) ∧
      ((serialize_user_profile p).map Prod.fst).Sublist
        ["title", "institution", "country", "study_area",
         "executive_summary"] ∧
      (∀ kv ∈ serialize_email_address e, isBlank kv.2 = false) ∧
      (∀ kv, kv ∈ serialize_email_address e ↔
        kv ∈ email_address_fields e ∧ isBlank kv.2 = false) ∧
      ((serialize_email_address e).map Prod.fst).Sublist
        ["email", "verified", "primary"] ∧
      (∀ kv ∈ serialize_social_account s, isBlank kv.2 = false) ∧
      (∀ kv, kv ∈ serialize_social_account s ↔
        kv ∈ orderedDict (social_account_fields s) ∧
          isBlank kv.2 = false) ∧
      ((serialize_social_account s).map Prod.fst).Sublist
        ["uid", "provider", "date_joined", "last_login", "extra_data"] := by
  intro u p e s
  refine ⟨?_, ?_, ?_, ?_, ?_, ?_, ?_, ?_, ?_, ?_, ?_, ?_⟩
  · intro kv hkv
    rw [serialize_user_eq] at hkv
    exact ((mem_filter_blank _ _).mp hkv).2
  · intro kv
    rw [serialize_user_eq]
    exact mem_filter_blank _ _
  · rw [serialize_user_eq, ← user_fields_keys u]
    exact filter_blank_keys_sublist _
  · intro kv hkv
    rw [serialize_user_profile_eq] at hkv
    exact ((mem_filter_blank _ _).mp hkv).2
  · intro kv
    rw [serialize_user_profile_eq]
    exact mem_filter_blank _ _
  · rw [serialize_user_profile_eq, ← user_profile_fields_keys p]
    exact filter_blank_keys_sublist _
  · intro kv hkv
    rw [serialize_email_address_eq] at hkv
    exact ((mem_filter_blank _ _).mp hkv).2
  · intro kv
    rw [serialize_email_address_eq]
    exact mem_filter_blank _ _
  · rw [serialize_email_address_eq, ← email_address_fields_keys e]
    exact filter_blank_keys_sublist _
  · intro kv hkv
    rw [serialize_social_account_eq] at hkv
    exact ((mem_filter_blank _ _).mp hkv).2
  · intro kv
    rw [serialize_social_account_eq, orderedDict_social_account_fields]
    exact mem_filter_blank _ _
  · rw [serialize_social_account_eq, ← social_account_dict_keys s]
    exact filter_blank_keys_sublist _

/-- C7: the signup gate refuses signup for every request, including an
absent one. -/
theorem claim_C7 :
    ∀ request : Option Request, is_open_for_signup request = false :=
  fun _ => rfl

/-- C6: a user whose `last_login` is `None` is serialized without any
`last_login` entry; a user whose `last_login` is a timestamp is
serialized with a `last_login` entry whose value is exactly the ISO-8601
rendering of that timestamp with `T` as the date/time separator. -/
theorem claim_C6 :
    ∀ u : User,
      (u.last_login = none →
        ∀ v, ("last_login", v) ∉ serialize_user u) ∧
      (∀ d, u.last_login = some d →
        ("last_login", JValue.str (d.isoformat "T")) ∈ serialize_user u ∧
        (∀ v, ("last_login", v) ∈ serialize_user u →
          v = JValue.str (d.isoformat "T")) ∧
        d.isoformat "T" = d.date_part ++ "T" ++ d.time_part) := by
  intro u
  constructor
  · intro h v
    rw [serialize_user_eq]
    intro hm
    rw [List.mem_filter] at hm
    obtain ⟨hmem, hp⟩ := hm
    simp [user_fields, h, datetime_to_string, Prod.mk.injEq] at hmem
    subst hmem
    simp [isBlank] at hp
  · intro d h
    refine ⟨?_, ?_, rfl⟩
    · rw [serialize_user_eq, List.mem_filter]
      constructor
      · simp [user_fields, h, datetime_to_string]
      · simp [isBlank, isoformat_ne_empty d]
    · intro v hm
      rw [serialize_user_eq, List.mem_filter] at hm
      obtain ⟨hmem, _⟩ := hm
      simp [user_fields, h, datetime_to_string, Prod.mk.injEq] at hmem
      exact hmem

/-- C8: when the profile row is missing — the attribute access raises
`UserProfile.DoesNotExist` — serialization treats the profile as absent
(the exception is caught, no error escapes) and the serialized record
contains no `user_profile` entry. -/
theorem claim_C8 :
    ∀ u : User,
      userprofile_attr u = Except.error "UserProfile.DoesNotExist" →
      get_user_profile u = none ∧
        ∀ v, ("user_profile", v) ∉ serialize_user u := by
  intro u h
  have hn : get_user_profile u = none := by rw [get_user_profile, h]
  refine ⟨hn, ?_⟩
  intro v
  rw [serialize_user_eq]
  intro hm
  rw [List.mem_filter] at hm
  obtain ⟨hmem, hp⟩ := hm
  simp [user_fields, hn, Prod.mk.injEq] at hmem
  subst hmem
  simp [isBlank] at hp

/-- Witness for C8 at the concrete user `alice`, who has no profile
row. -/
theorem claim_C8_witness :
    get_user_profile alice = none ∧
      ∀ v, ("user_profile", v) ∉ serialize_user alice :=
  claim_C8 alice rfl

/-- C9: the blank test compares only against `None`, `""` and `[]`, so a
boolean `False` or an integer zero is never blank; in particular a
deactivated user keeps its `is_active` entry and an unverified email
keeps its `verified` entry, and generally every non-blank entry of a
dictionary with distinct keys survives stripping. -/
theorem claim_C9 :
    ∀ (b : Bool) (n : Int) (e : EmailAddress) (u : User),
      isBlank (JValue.bool b) = false ∧
      isBlank (JValue.int n) = false ∧
      (e.verified = JValue.bool false →
        ("verified", JValue.bool false) ∈ serialize_email_address e) ∧
      (e.primary = JValue.bool false →
        ("primary", JValue.bool false) ∈ serialize_email_address e) ∧
      (u.is_active = JValue.bool false →
        ("is_active", JValue.bool false) ∈ serialize_user u) ∧
      (∀ (d : List (String × JValue)) (k : String) (v : JValue),
        (d.map Prod.fst).Nodup → (k, v) ∈ d → isBlank v = false →
        (k, v) ∈ strip_blanks d) := by
  intro b n e u
  refine ⟨rfl, rfl, ?_, ?_, ?_, ?_⟩
  · intro h
    rw [serialize_email_address_eq, List.mem_filter]
    exact ⟨by simp [email_address_fields, h], by simp [isBlank]⟩
  · intro h
    rw [serialize_email_address_eq, List.mem_filter]
    exact ⟨by simp [email_address_fields, h], by simp [isBlank]⟩
  · intro h
    rw [serialize_user_eq, List.mem_filter]
    exact ⟨by simp [user_fields, h], by simp [isBlank]⟩
  · intro d k v hnd hm hb
    rw [strip_blanks_eq_filter d hnd, List.mem_filter]
    exact ⟨hm, by simp [hb]⟩

/-- C10: although `serialize_social_account` lists `provider` twice, the
dictionary it builds contains the entry once — value the account's
provider, positioned directly after `uid` — so the serialized record has
at most one `provider` entry, its value is the provider, and when neither
`uid` nor `provider` is blank the record begins `uid`, `provider`. -/
theorem claim_C10 :
    ∀ s : SocialAccount,
      orderedDict (social_account_fields s) = social_account_dict s ∧
      ((serialize_social_account s).map Prod.fst).count "provider" ≤ 1 ∧
      (∀ v, ("provider", v) ∈ serialize_social_account s →
        v = s.provider) ∧
      (isBlank s.uid = false → isBlank s.provider = false →
        ∃ rest, serialize_social_account s =
          ("uid", s.uid) :: ("provider", s.provider) :: rest) := by
  intro s
  refine ⟨rfl, ?_, ?_, ?_⟩
  · have hs : ((serialize_social_account s).map Prod.fst).Sublist
        ["uid", "provider", "date_joined", "last_login", "extra_data"] := by
      rw [serialize_social_account_eq, ← social_account_dict_keys s]
      exact filter_blank_keys_sublist _
    calc ((serialize_social_account s).map Prod.fst).count "provider"
        ≤ (["uid", "provider", "date_joined", "last_login",
            "extra_data"] : List String).count "provider" :=
          hs.count_le "provider"
      _ = 1 := by decide
  · intro v hm
    rw [serialize_social_account_eq, List.mem_filter] at hm
    obtain ⟨hmem, _⟩ := hm
    simp [social_account_dict, Prod.mk.injEq] at hmem
    exact hmem
  · intro h1 h2
    rw [serialize_social_account_eq]
    rw [social_account_dict]
    rw [List.filter_cons_of_pos (by simp [h1]),
      List.filter_cons_of_pos (by simp [h2])]
    exact ⟨_, rfl⟩

/-- C2: with no usernames the command serializes every user; with
usernames it serializes exactly the users whose name is listed (the
membership characterization makes this precise); a listed name matching
no user changes nothing — dropping it from a still non-empty argument
list gives the same output, with no error anywhere — and concretely,
exporting `["alice", "ghost"]` against a database holding only `alice`
yields the one-element array for `alice`. -/
theorem claim_C2 :
    ∀ (users : List User) (args : List String),
      (args = [] → handle_data users args = users.map serialize_user) ∧
      (args ≠ [] → handle_data users args =
        (users.filter (fun u => args.contains u.username)).map
          serialize_user) ∧
      (args ≠ [] → ∀ u, u ∈ users_query users args ↔
        u ∈ users ∧ u.username ∈ args) ∧
      (∀ ghost ∈ args, (∀ u ∈ users, u.username ≠ ghost) →
        args.filter (fun a => !(a == ghost)) ≠ [] →
        handle_data users args =
          handle_data users (args.filter (fun a => !(a == ghost)))) ∧
      handle_data [alice] ["alice", "ghost"] = [serialize_user alice] := by
  intro users args
  refine ⟨?_, ?_, ?_, ?_, rfl⟩
  · intro h
    subst h
    rfl
  · intro h
    rw [handle_data, users_query, if_neg]
    simp [h]
  · intro h u
    rw [users_query, if_neg (by simp [h])]
    simp [List.mem_filter]
  · intro ghost hgm hg hne
    have hane : args ≠ [] := by
      intro hc
      subst hc
      cases hgm
    rw [handle_data, handle_data, users_query, users_query,
      if_neg (by simp [hane]), if_neg (by simp [hne])]
    congr 1
    apply List.filter_congr
    intro u hu
    have hne' : u.username ≠ ghost := hg u hu
    rw [Bool.eq_iff_iff]
    constructor
    · intro hm
      have hx : u.username ∈ args := by simpa using hm
      simpa [List.mem_filter, hne'] using hx
    · intro hm
      have hx : u.username ∈ args.filter (fun a => !(a == ghost)) := by
        simpa using hm
      have := (List.mem_filter.mp hx).1
      simpa using this

/-- C3: the access logger emits exactly two lines; the second is the `R`
line, and its severity is determined by the response status code and the
authentication state: below 400 the handler-configured authenticated or
unauthenticated info level (each defaulting to `INFO` when the attribute
is absent), 400–499 `WARNING`, 500 and above `ERROR`. -/
theorem claim_C3 :
    ∀ (g : GetResponse) (request : Request),
      ∃ first second,
        (access_logging_middleware g request).1 = [first, second] ∧
        (∃ rest, second.message = "R " ++ rest) ∧
        ((g.run request).status_code < 400 →
          second.level = if request.user.is_authenticated then
            getattr_log_level_auth g INFO
          else getattr_log_level_unauth g INFO) ∧
        (400 ≤ (g.run request).status_code →
          (g.run request).status_code < 500 → second.level = WARNING) ∧
        (500 ≤ (g.run request).status_code → second.level = ERROR) ∧
        (g.log_level_auth = none → getattr_log_level_auth g INFO = INFO) ∧
        (g.log_level_unauth = none →
          getattr_log_level_unauth g INFO = INFO) := by
  intro g request
  refine ⟨_, _, rfl, ⟨_, rfl⟩, ?_, ?_, ?_, ?_, ?_⟩
  · intro h
    show get_log_level _ _ _ _ = _
    rw [get_log_level, if_pos h]
  · intro h1 h2
    show get_log_level _ _ _ _ = _
    rw [get_log_level, if_neg (by omega), if_pos h2]
  · intro h
    show get_log_level _ _ _ _ = _
    rw [get_log_level, if_neg (by omega), if_neg (by omega)]
  · intro h
    rw [getattr_log_level_auth, h]
    rfl
  · intro h
    rw [getattr_log_level_unauth, h]
    rfl

/-- C4: the logout middleware logs the user out — and does so before the
wrapped handler runs — exactly when the request's user is authenticated
and inactive; in every other state the request reaches the handler
unchanged; and the handler is invoked unconditionally, as the final
action of the trace. -/
theorem claim_C4 :
    ∀ (α : Type) (get_response : Request → α) (request : Request),
      (inactive_user_logout_middleware get_response request).1.getLast?
          = some MWAction.callHandler ∧
      (MWAction.logout ∈
          (inactive_user_logout_middleware get_response request).1 ↔
        request.user.is_authenticated = true ∧
          request.user.is_active = false) ∧
      (request.user.is_authenticated = true →
        request.user.is_active = false →
        inactive_user_logout_middleware get_response request =
          ([MWAction.logout, MWAction.callHandler], logout request,
            get_response (logout request)) ∧
        (logout request).user.is_authenticated = false) ∧
      (¬(request.user.is_authenticated = true ∧
          request.user.is_active = false) →
        inactive_user_logout_middleware get_response request =
          ([MWAction.callHandler], request, get_response request)) := by
  intro α get_response request
  by_cases h : request.user.is_authenticated = true ∧
      request.user.is_active = false
  · have hb : (request.user.is_authenticated &&
        !(request.user.is_active)) = true := by
      simp [h.1, h.2]
    rw [inactive_user_logout_middleware, if_pos hb]
    exact ⟨rfl, by simp [h], fun _ _ => ⟨rfl, rfl⟩, fun hc => absurd h hc⟩
  · have hb : (request.user.is_authenticated &&
        !(request.user.is_active)) = false := by
      cases ha : request.user.is_authenticated with
      | false => simp
      | true =>
          cases hc : request.user.is_active with
          | false => exact absurd ⟨ha, hc⟩ h
          | true => simp [hc]
    rw [inactive_user_logout_middleware, if_neg (by simp [hb])]
    refine ⟨rfl, ⟨fun hm => ?_, fun hc => absurd hc h⟩,
      fun h1 h2 => absurd ⟨h1, h2⟩ h, fun _ => rfl⟩
    simp at hm

/-- C5 counterexample: the claim asserts the write to a named file is
atomic, but the command opens the file in write mode and then streams the
JSON into it, so the truncated empty state is an observable intermediate
content of the destination — at the concrete input below (no users,
destination `users.json`, prior content `previous`) the write is not
atomic. -/
theorem claim_C5_counterexample :
    (handle [] [] "users.json" "previous").sink = Sink.file "users.json" ∧
    atomic_states "previous" (export_text [] [])
      (handle [] [] "users.json" "previous").states = false := by
  constructor
  · rfl
  · rfl

/-- C5 as amended: the command writes the JSON text to standard output
when the destination is `-`, and otherwise opens the named file in write
mode — truncating, hence overwriting, any existing content — and then
writes the text to it directly (not atomically: the truncated state is
observable before the final text); the rendering uses the `JSON_OPTS`
options — no key sorting (insertion order), 2-space indentation and the
`,`/`: ` separators — as the concrete rendering in the last conjunct
shows. -/
theorem claim_C5 :
    ∀ (users : List User) (args : List String)
      (filename old_content : String),
      (filename = "-" → handle users args filename old_content =
        ⟨Sink.standard_output, [export_text users args]⟩) ∧
      (filename ≠ "-" →
        (handle users args filename old_content).sink =
          Sink.file filename ∧
        (handle users args filename old_content).states =
          [old_content, "", export_text users args]) ∧
      JSON_OPTS.sort_keys = false ∧
      JSON_OPTS.indent = 2 ∧
      JSON_OPTS.separators = (",", ": ") ∧
      export_text users args =
        json_dump_value JSON_OPTS 0
          (JValue.list ((handle_data users args).map JValue.obj)) ∧
      json_dump_value JSON_OPTS 0
          (JValue.obj [("b", JValue.int 1), ("a", JValue.str "x")]) =
        "\x7b\n  \"b\": 1,\n  \"a\": \"x\"\n\x7d" := by
  intro users args filename old_content
  refine ⟨?_, ?_, rfl, rfl, rfl, rfl, by decide⟩
  · intro h
    simp only [handle, command_write, if_pos h]
  · intro h
    have he : handle users args filename old_content =
        ⟨Sink.file filename, [old_content, "", export_text users args]⟩ := by
      simp only [handle, command_write, if_neg h]
    rw [he]
    exact ⟨rfl, rfl⟩

/-- A concrete user profile. -/
def sample_profile : UserProfile :=
  ⟨JValue.str "Dr", JValue.str "EOX", ⟨JValue.str "AT"⟩, JValue.str "",
    JValue.null⟩

/-- A concrete request from an authenticated but deactivated user. -/
def sample_inactive_request : Request :=
  ⟨⟨"bob", true, false⟩, "GET", "/ows", none, none⟩

/-- Witness for C1: the non-blank `username` entry of the concrete user
`alice` is retained. -/
theorem claim_C1_witness :
    ("username", JValue.str "alice") ∈ serialize_user alice :=
  ((claim_C1 alice sample_profile sample_email sample_social).2.1
    ("username", JValue.str "alice")).mpr ⟨List.mem_cons_self _ _, rfl⟩

/-- Witness for C2: the concrete `["alice", "ghost"]` export against a
one-user database. -/
theorem claim_C2_witness :
    handle_data [alice] ["alice", "ghost"] = [serialize_user alice] :=
  (claim_C2 [alice] ["alice", "ghost"]).2.2.2.2

/-- Witness for C3 at a concrete handler answering 503 to an
authenticated request. -/
theorem claim_C3_witness :
    ∃ first second,
      (access_logging_middleware (sample_get_response 503)
          sample_request).1 = [first, second] ∧
      (∃ rest, second.message = "R " ++ rest) ∧
      (((sample_get_response 503).run sample_request).status_code < 400 →
        second.level = if sample_request.user.is_authenticated then
          getattr_log_level_auth (sample_get_response 503) INFO
        else getattr_log_level_unauth (sample_get_response 503) INFO) ∧
      (400 ≤ ((sample_get_response 503).run sample_request).status_code →
        ((sample_get_response 503).run sample_request).status_code < 500 →
        second.level = WARNING) ∧
      (500 ≤ ((sample_get_response 503).run sample_request).status_code →
        second.level = ERROR) ∧
      ((sample_get_response 503).log_level_auth = none →
        getattr_log_level_auth (sample_get_response 503) INFO = INFO) ∧
      ((sample_get_response 503).log_level_unauth = none →
        getattr_log_level_unauth (sample_get_response 503) INFO = INFO) :=
  claim_C3 (sample_get_response 503) sample_request

/-- Witness for C4 at a concrete authenticated-inactive request: the
trace is logout, then the handler call. -/
theorem claim_C4_witness :
    inactive_user_logout_middleware (fun _ => (0 : Nat))
        sample_inactive_request =
      ([MWAction.logout, MWAction.callHandler],
        logout sample_inactive_request, 0) :=
  ((claim_C4 Nat (fun _ => 0) sample_inactive_request).2.2.1 rfl rfl).1

/-- Witness for C5 at the concrete destination `-`: the text goes to
standard output. -/
theorem claim_C5_witness :
    handle [] [] "-" "" = ⟨Sink.standard_output, [export_text [] []]⟩ :=
  (claim_C5 [] [] "-" "").1 rfl

/-- Witness for C6 at the concrete users `bob` (no last login — key
absent) and `alice` (timestamped last login — ISO value present). -/
theorem claim_C6_witness :
    ("last_login", JValue.null) ∉ serialize_user bob ∧
    ("last_login", JValue.str (sample_datetime.isoformat "T")) ∈
      serialize_user alice :=
  ⟨(claim_C6 bob).1 rfl JValue.null,
    ((claim_C6 alice).2 sample_datetime rfl).1⟩

/-- Witness for C7 at the absent request. -/
theorem claim_C7_witness : is_open_for_signup none = false :=
  claim_C7 none

/-- Witness for C9 at the concrete unverified email address and the
concrete deactivated user: both false flags are retained. -/
theorem claim_C9_witness :
    ("verified", JValue.bool false) ∈ serialize_email_address sample_email ∧
    ("is_active", JValue.bool false) ∈ serialize_user bob :=
  ⟨(claim_C9 false 0 sample_email bob).2.2.1 rfl,
    (claim_C9 false 0 sample_email bob).2.2.2.2.1 rfl⟩

/-- Witness for C10 at the concrete social account: the record starts
with `uid` then the single `provider` entry. -/
theorem claim_C10_witness :
    ∃ rest, serialize_social_account sample_social =
      ("uid", JValue.str "uid123") ::
        ("provider", JValue.str "dummy_oauth2") :: rest :=
  (claim_C10 sample_social).2.2.2 rfl rfl
